import Mathlib

/-!
Verification development for the Secondbrain graph-canvas component
(`src/lib/GraphCanvas` family, debug-instrumented revision).

The component keeps a local mirror (`graphData`) of the backend graph and a
render surface (two vis.js `DataSet`s), reconciles them against fetched
snapshots (`updateGraph`), and drives a two-click relationship-authoring
workflow (`handleNetworkClick`) with optimistic edge insertion and rollback.

The shallow embedding below translates the component state into an explicit
`CanvasState`, the vis.js `DataSet` operations into list operations keyed by
id, and the click handler into a pure step function returning the new state
together with the chronologically ordered list of side effects it performs
(dataset mutations, backend invocations, host-event dispatches).

JS `from`/`to` object fields are embedded as `fromId`/`toId` because `from`
is a reserved word in Lean.  Mirror edges are heterogeneous in the source:
edges coming from a fetch carry `from`/`to` fields while optimistically
pushed edges carry `source`/`target` fields; the embedding keeps all four as
`Option` fields, `none` standing for a field absent from the JS object.
-/

namespace Secondbrain

/-- Backend node record as consumed by the component:
`{ id, label, node_type, properties }`.  The only property the component
reads is `created_at` (for the tooltip); its rendered date string is kept
abstract as `created_at`. -/
structure NodeRecord where
  id : String
  label : String
  node_type : String
  created_at : String
deriving DecidableEq

/-- Backend edge record as consumed: `{ id, source, target, label }`. -/
structure EdgeRecord where
  id : String
  source : String
  target : String
  label : String
deriving DecidableEq

/-- A full backend snapshot, the payload of `get_graph_data`. -/
structure BackendGraph where
  nodes : List NodeRecord
  edges : List EdgeRecord
deriving DecidableEq

/-- `getNodeTooltip` from the source: diary nodes get a title/created
tooltip, others a tag tooltip.  The JS `new Date(...).toLocaleString()`
formatting is kept abstract as the raw `created_at` string. -/
def getNodeTooltip (node : NodeRecord) : String :=
  if node.node_type == "diary" then
    "Title: " ++ node.label ++ "<br>Created: " ++ node.created_at
  else
    "Tag: " ++ node.label

/-- A processed node as stored in `graphData.nodes` and in the vis.js node
dataset: `{ id, label, group, node_type, title }`.  Note the processed shape
carries no `properties` field. -/
structure ProcessedNode where
  id : String
  label : String
  group : String
  node_type : String
  title : String
deriving DecidableEq

/-- A render-surface edge as stored in the vis.js edge dataset:
`{ id, from, to, label, arrows }` (the constant `arrows: 'to'` is elided;
`from`/`to` are embedded as `fromId`/`toId`). -/
structure VisEdge where
  id : String
  fromId : String
  toId : String
  label : String
deriving DecidableEq

/-- A mirror edge as stored in `graphData.edges`.  Fetched edges carry
`from`/`to` (here `fromId`/`toId`); edges pushed optimistically at commit
carry `source`/`target` instead.  `none` = field absent on the JS object. -/
structure MirrorEdge where
  id : String
  fromId : Option String := none
  toId : Option String := none
  source : Option String := none
  target : Option String := none
  label : String
deriving DecidableEq

/-- Replace the first occurrence of `pat` in the character list by `repl`,
the semantics of the JS `String.prototype.replace` with a string pattern. -/
def replaceFirstAux (pat repl : List Char) : List Char → List Char
  | [] => []
  | c :: rest =>
    if pat.isPrefixOf (c :: rest) then repl ++ (c :: rest).drop pat.length
    else c :: replaceFirstAux pat repl rest

/-- The JS `s.replace(pat, repl)` for a string pattern: first occurrence
only.  (Implemented over character lists so that it evaluates by kernel
reduction.) -/
def jsReplaceFirst (s pat repl : String) : String :=
  String.mk (replaceFirstAux pat.data repl.data s.data)

/-- The JS `s.trim()`: strip leading and trailing whitespace.
(Implemented over character lists so that it evaluates by kernel
reduction.) -/
def jsTrim (s : String) : String :=
  String.mk
    (((s.data.dropWhile Char.isWhitespace).reverse.dropWhile
        Char.isWhitespace).reverse)

/-- The display label: `edge.label.replace('tagged_as_', '')`. -/
def edgeDisplayLabel (label : String) : String :=
  jsReplaceFirst label "tagged_as_" ""

/-- Node mapping used by `loadGraphData` and `updateGraph`. -/
def processNode (n : NodeRecord) : ProcessedNode :=
  { id := n.id, label := n.label, group := n.node_type,
    node_type := n.node_type, title := getNodeTooltip n }

/-- Edge mapping into the render-surface shape. -/
def processVisEdge (e : EdgeRecord) : VisEdge :=
  { id := e.id, fromId := e.source, toId := e.target,
    label := edgeDisplayLabel e.label }

/-- Edge mapping into the mirror shape (a fetched edge has `from`/`to`
set and no `source`/`target` fields). -/
def processMirrorEdge (e : EdgeRecord) : MirrorEdge :=
  { id := e.id, fromId := some e.source, toId := some e.target,
    source := none, target := none, label := edgeDisplayLabel e.label }

/-- The component state: the mirror (`graphData`), the render surface
(the two vis.js datasets plus flags recording whether `initializeNetwork`
has created them), the loading/error flags, and the authoring workflow
fields. -/
structure CanvasState where
  graphNodes : List ProcessedNode
  graphEdges : List MirrorEdge
  nodesDataset : List ProcessedNode
  edgesDataset : List VisEdge
  datasetsInit : Bool
  networkInit : Bool
  loading : Bool
  error : Option String
  isCreatingRelationship : Bool
  hasSelectedFirstNode : Bool
  selectedNodeId : Option String
  selectedEdge : Option String
  relationshipType : String
  statusMessage : Option String
deriving DecidableEq

/-! ### vis.js DataSet operations, keyed by id -/

/-- `DataSet.getIds()`. -/
def dsGetIds (key : α → String) (ds : List α) : List String :=
  ds.map key

/-- `DataSet.remove(ids)`: drop every item whose id is listed. -/
def dsRemove (key : α → String) (ids : List String) (ds : List α) : List α :=
  ds.filter (fun x => !(ids.contains (key x)))

/-- One step of `DataSet.update`: replace the item with a matching id in
place, or append it when the id is not present. -/
def dsUpdateOne (key : α → String) (ds : List α) (item : α) : List α :=
  if ds.any (fun x => key x == key item) then
    ds.map (fun x => if key x == key item then item else x)
  else
    ds ++ [item]

/-- `DataSet.update(items)`: upsert each item in order. -/
def dsUpdate (key : α → String) (items : List α) (ds : List α) : List α :=
  items.foldl (dsUpdateOne key) ds

/-- `DataSet.add(item)`.  vis.js throws on a duplicate id; the caller in
the source only adds freshly generated UUIDs, so the embedding models the
successful append. -/
def dsAdd (ds : List α) (item : α) : List α :=
  ds ++ [item]

/-- The removal diff computed by `updateGraph`:
`currentIds.filter(id => !newIds.includes(id))`. -/
def idsToRemove (key : α → String) (newItems : List α) (ds : List α) :
    List String :=
  (dsGetIds key ds).filter (fun i => !((newItems.map key).contains i))

/-- The per-collection diff application of `updateGraph`: remove the
stale ids first, then upsert every new item. -/
def diffApply (key : α → String) (newItems : List α) (ds : List α) :
    List α :=
  dsUpdate key newItems (dsRemove key (idsToRemove key newItems ds) ds)

/-- The data path of `updateGraph` after a successful fetch of `data`:
process the records; if the datasets are initialized apply the incremental
diff to each of them (removals first, then upserts, independently for nodes
and for edges); finally replace `graphData` with the processed collections.
The `loading`/`error` bookkeeping of the surrounding try/catch/finally is
modelled separately by `updateGraphStart` / `updateGraphFail`. -/
def updateGraphApply (data : BackendGraph) (s : CanvasState) : CanvasState :=
  let processedNodes := data.nodes.map processNode
  let processedEdges := data.edges.map processVisEdge
  let s1 :=
    if s.datasetsInit && s.networkInit then
      { s with
        nodesDataset := diffApply ProcessedNode.id processedNodes s.nodesDataset,
        edgesDataset := diffApply VisEdge.id processedEdges s.edgesDataset }
    else s
  { s1 with
    graphNodes := processedNodes,
    graphEdges := data.edges.map processMirrorEdge }

/-- The state visible while `updateGraph`'s fetch is in flight: `loading`
has been set when `showLoading` was requested, nothing else has changed. -/
def updateGraphStart (showLoading : Bool) (s : CanvasState) : CanvasState :=
  if showLoading then { s with loading := true } else s

/-- The catch/finally path of `updateGraph` when the fetch fails: the
error is recorded and the finally block clears `loading` only when
`showLoading` was requested. -/
def updateGraphFail (showLoading : Bool) (s : CanvasState) : CanvasState :=
  let s1 := { s with error := some "Failed to update graph" }
  if showLoading then { s1 with loading := false } else s1

/-- The state visible while `loadGraphData`'s fetch is in flight. -/
def loadGraphDataStart (s : CanvasState) : CanvasState :=
  { s with loading := true }

/-- The catch path of `loadGraphData` when the fetch fails. -/
def loadGraphDataFail (s : CanvasState) : CanvasState :=
  { s with error := some "Failed to load graph data", loading := false }

/-! ### Relationship authoring -/

/-- The artificial pre-invoke pause wired into `safeInvoke`: the function
awaits a 10000 ms timer before performing the backend `invoke` whenever the
command is `add_relationship`, and invokes immediately otherwise. -/
def safeInvokeDelayMs (command : String) : Nat :=
  if command == "add_relationship" then 10000 else 0

/-- `relationshipExists(node1Id, node2Id)` from the source: scans the
mirror's edges for a `from`/`to` pair matching in either direction.  (An
absent JS field compares unequal to any string, which the `Option`
comparison reproduces.) -/
def relationshipExists (s : CanvasState) (node1Id node2Id : String) : Bool :=
  s.graphEdges.any fun edge =>
    (edge.fromId == some node1Id && edge.toId == some node2Id) ||
    (edge.fromId == some node2Id && edge.toId == some node1Id)

/-- The observable side effects of the click handler, in the chronological
order the source performs them.  `invokeBackend` marks the point at which
`safeInvoke` is called for a backend command; its `delayMs` field records
the artificial timer `safeInvoke` awaits before the underlying `invoke`
fires. -/
inductive Effect where
  | addEdgeToRender (e : VisEdge)
  | pushEdgeToMirror (e : MirrorEdge)
  | invokeBackend (delayMs : Nat) (command : String)
      (id parentId childId relType : String)
  | unselectNetwork
  | dispatchHost (event : String) (payload : Option String)
deriving DecidableEq

/-- A vis.js click callback payload, reduced to the hit node ids and hit
edge ids the handler inspects. -/
structure ClickParams where
  nodes : List String
  edges : List String
deriving DecidableEq

/-- The status/error message built in the handler's catch paths:
`"Failed to create relationship: " + errorMsg`. -/
def commitFailMsg (errorMsg : String) : String :=
  "Failed to create relationship: " ++ errorMsg

/-- The rejection message for a repeated click on the pending child. -/
def sameNodeMsg : String :=
  "Please select a different node for the second selection"

/-- The rejection message for a tag-node click while authoring. -/
def tagNodeMsg : String :=
  "Cannot create relationships with tag nodes"

/-- The diary-node test performed at click time:
`group === 'diary' || node_type === 'diary' || properties has created_at`.
Processed nodes carry no `properties` field, so the third disjunct of the
source's check is identically false and is elided. -/
def isDiaryNode (node : ProcessedNode) : Bool :=
  node.group == "diary" || node.node_type == "diary"

/-- The tag-node test: `group === 'tag' || node_type === 'tag'`. -/
def isTagNode (node : ProcessedNode) : Bool :=
  node.group == "tag" || node.node_type == "tag"

/-- The result of a validation throw inside the commit step's try block:
the catch sets both the status message and the error field; nothing else
happens. -/
def commitThrow (s : CanvasState) (errorMsg : String) :
    CanvasState × List Effect :=
  ({ s with statusMessage := some (commitFailMsg errorMsg),
            error := some (commitFailMsg errorMsg) }, [])

/-- The commit step of `handleNetworkClick` (second valid diary-node
selection): validate the two ids, build the new edge with the freshly
generated uuid `rid`, optimistically add it to the edge dataset and push it
onto the mirror when the render surface is initialized, call `safeInvoke`
for `add_relationship` (fire-and-forget), reset the pending selection
(`resetRelationshipState`, which also unselects the network when present),
and dispatch `relationshipCreated` to the host. -/
def commitRelationship (s : CanvasState) (rid clickedNodeId : String) :
    CanvasState × List Effect :=
  if jsTrim clickedNodeId == "" then
    commitThrow s "Invalid parent ID"
  else
    match s.selectedNodeId with
    | none => commitThrow s "Invalid child ID"
    | some firstNodeId =>
      if jsTrim firstNodeId == "" then
        commitThrow s "Invalid child ID"
      else
        let newEdge : VisEdge :=
          { id := rid, fromId := clickedNodeId, toId := firstNodeId,
            label := s.relationshipType }
        let pushedEdge : MirrorEdge :=
          { id := rid, source := some clickedNodeId,
            target := some firstNodeId, label := s.relationshipType }
        let ready := s.datasetsInit && s.networkInit
        let s1 :=
          if ready then
            { s with edgesDataset := dsAdd s.edgesDataset newEdge,
                     graphEdges := s.graphEdges ++ [pushedEdge] }
          else s
        let fx1 :=
          if ready then
            [Effect.addEdgeToRender newEdge, Effect.pushEdgeToMirror pushedEdge]
          else []
        let fx2 :=
          [Effect.invokeBackend (safeInvokeDelayMs "add_relationship")
            "add_relationship" rid clickedNodeId firstNodeId
            s.relationshipType]
        let s2 := { s1 with hasSelectedFirstNode := false,
                            selectedNodeId := none }
        let fx3 := if s.networkInit then [Effect.unselectNetwork] else []
        (s2, fx1 ++ fx2 ++ fx3 ++ [Effect.dispatchHost "relationshipCreated" none])

/-- `handleNetworkClick(params)`: edge hits take precedence; empty-space
clicks clear the edge selection (and the node selection outside authoring
mode); node hits are resolved against the mirror and routed to plain
selection or to the authoring workflow.  `rid` is the uuid that `uuidv4()`
would generate if this click reaches the commit step. -/
def handleNetworkClick (s : CanvasState) (rid : String)
    (params : ClickParams) : CanvasState × List Effect :=
  match params.edges with
  | e :: _ =>
      ({ s with selectedEdge := some e, selectedNodeId := none,
                hasSelectedFirstNode := false }, [])
  | [] =>
    match params.nodes with
    | [] =>
        if !s.isCreatingRelationship then
          ({ s with selectedEdge := none, selectedNodeId := none,
                    hasSelectedFirstNode := false }, [])
        else
          ({ s with selectedEdge := none }, [])
    | clickedNodeId :: _ =>
      match s.graphNodes.find? (fun n => n.id == clickedNodeId) with
      | none => (s, [])
      | some node =>
        if isDiaryNode node then
          if s.isCreatingRelationship then
            if !s.hasSelectedFirstNode then
              ({ s with selectedNodeId := some clickedNodeId,
                        hasSelectedFirstNode := true,
                        statusMessage := none }, [])
            else if s.selectedNodeId != some clickedNodeId then
              commitRelationship s rid clickedNodeId
            else
              ({ s with statusMessage := some sameNodeMsg }, [])
          else
            (s, [Effect.dispatchHost "selectDiary" (some clickedNodeId)])
        else if isTagNode node then
          if s.isCreatingRelationship then
            ({ s with statusMessage := some tagNodeMsg }, [])
          else
            (s, [Effect.dispatchHost "selectTag" (some node.label)])
        else
          (s, [])

/-- The `.then` continuation of the commit's `safeInvoke` call. -/
def addRelationshipSuccess (s : CanvasState) : CanvasState :=
  { s with statusMessage := some "Relationship created successfully" }

/-- The `.catch` continuation of the commit's `safeInvoke` call: when the
datasets exist, remove the optimistically inserted edge by its generated id
from the edge dataset and from the mirror, then surface the failure both as
the status message and the error field.  `err` is the stringified error
detail. -/
def addRelationshipFailure (rid err : String) (s : CanvasState) :
    CanvasState :=
  let s1 :=
    if s.datasetsInit then
      { s with
        edgesDataset := s.edgesDataset.filter (fun e => !(e.id == rid)),
        graphEdges := s.graphEdges.filter (fun e => !(e.id == rid)) }
    else s
  { s1 with statusMessage := some (commitFailMsg err),
            error := some (commitFailMsg err) }

/-- A commit click whose persistence request later fails: the handler runs
synchronously (producing its effect trace), and the `.catch` continuation
fires afterwards.  The continuation performs no host-event dispatch, so the
trace of the whole episode is exactly the handler's trace. -/
def commitThenFail (s : CanvasState) (rid : String) (params : ClickParams)
    (err : String) : CanvasState × List Effect :=
  let r := handleNetworkClick s rid params
  (addRelationshipFailure rid err r.1, r.2)

/-! ### Concrete fixtures (the spec's walkthrough scenario) -/

/-- Diary node `d1` in processed form. -/
def nodeD1 : ProcessedNode :=
  { id := "d1", label := "Entry 1", group := "diary", node_type := "diary",
    title := "Title: Entry 1<br>Created: t1" }

/-- Diary node `d2` in processed form. -/
def nodeD2 : ProcessedNode :=
  { id := "d2", label := "Entry 2", group := "diary", node_type := "diary",
    title := "Title: Entry 2<br>Created: t2" }

/-- Tag node `t1` in processed form. -/
def nodeT1 : ProcessedNode :=
  { id := "t1", label := "work", group := "tag", node_type := "tag",
    title := "Tag: work" }

/-- The authoring state of the spec's scenario right after clicking `d1`:
mode active, `d1` recorded as pending child, empty edge sets, render
surface initialized. -/
def sAwaitParent : CanvasState :=
  { graphNodes := [nodeD1, nodeD2, nodeT1]
    graphEdges := []
    nodesDataset := [nodeD1, nodeD2, nodeT1]
    edgesDataset := []
    datasetsInit := true
    networkInit := true
    loading := false
    error := none
    isCreatingRelationship := true
    hasSelectedFirstNode := true
    selectedNodeId := some "d1"
    selectedEdge := none
    relationshipType := "depends_on"
    statusMessage := none }

/-- A click that hits node `d1`. -/
def clickD1 : ClickParams := { nodes := ["d1"], edges := [] }

/-- A click that hits node `d2`. -/
def clickD2 : ClickParams := { nodes := ["d2"], edges := [] }

/-- A click that hits node `t1`. -/
def clickT1 : ClickParams := { nodes := ["t1"], edges := [] }

/-- A pre-existing mirror edge between `d1` and `d2` in fetched shape. -/
def edgeD1D2 : MirrorEdge :=
  { id := "e0", fromId := some "d1", toId := some "d2", label := "depends_on" }

/-- The same pre-existing edge on the render surface. -/
def visEdgeD1D2 : VisEdge :=
  { id := "e0", fromId := "d1", toId := "d2", label := "depends_on" }

/-- The scenario state with an existing `d1`–`d2` relationship, so that a
second pick of the same pair is a duplicate. -/
def sDup : CanvasState :=
  { sAwaitParent with graphEdges := [edgeD1D2], edgesDataset := [visEdgeD1D2] }

/-- A state left behind by an earlier failed load: the error field is set
(the component never clears it) and loading is clear. -/
def sErrLoad : CanvasState :=
  { sAwaitParent with error := some "Failed to load graph data" }

/-- A small backend snapshot: diary records `d1`, `d2`, tag `t1`, one
tag edge. -/
def snapshotA : BackendGraph :=
  { nodes := [{ id := "d1", label := "Entry 1", node_type := "diary",
                created_at := "t1" },
              { id := "d2", label := "Entry 2", node_type := "diary",
                created_at := "t2" },
              { id := "t1", label := "work", node_type := "tag",
                created_at := "" }]
    edges := [{ id := "e1", source := "d1", target := "t1",
                label := "tagged_as_work" }] }

/-! ### Characterization lemmas for the click handler -/

/-- Under the commit conditions (authoring mode with a recorded pending
child `f`, a click on a different diary node `c`, valid ids, initialized
render surface) the click handler performs exactly the optimistic
insertion, the delayed `add_relationship` invocation, the selection reset
and the `relationshipCreated` dispatch. -/
theorem handleNetworkClick_commit
    (s : CanvasState) (rid c f : String) (node : ProcessedNode)
    (hmode : s.isCreatingRelationship = true)
    (hfirst : s.hasSelectedFirstNode = true)
    (hsel : s.selectedNodeId = some f)
    (hne : f ≠ c)
    (hfind : s.graphNodes.find? (fun n => n.id == c) = some node)
    (hdiary : isDiaryNode node = true)
    (hct : jsTrim c ≠ "")
    (hft : jsTrim f ≠ "")
    (hd : s.datasetsInit = true) (hn : s.networkInit = true) :
    handleNetworkClick s rid { nodes := [c], edges := [] } =
      ({ s with
          edgesDataset := s.edgesDataset ++
              [{ id := rid, fromId := c, toId := f, label := s.relationshipType }],
          graphEdges := s.graphEdges ++
              [{ id := rid, source := some c, target := some f,
                 label := s.relationshipType }],
          hasSelectedFirstNode := false,
          selectedNodeId := none },
       [Effect.addEdgeToRender
          { id := rid, fromId := c, toId := f, label := s.relationshipType },
        Effect.pushEdgeToMirror
          { id := rid, source := some c, target := some f,
            label := s.relationshipType },
        Effect.invokeBackend 10000 "add_relationship" rid c f
          s.relationshipType,
        Effect.unselectNetwork,
        Effect.dispatchHost "relationshipCreated" none]) := by
  have hbne : (s.selectedNodeId != some c) = true := by
    rw [hsel]
    simp [bne_iff_ne, hne]
  have hct' : (jsTrim c == "") = false := by
    simpa using hct
  have hft' : (jsTrim f == "") = false := by
    simpa using hft
  simp only [handleNetworkClick, hfind, hmode, hfirst, hsel, hdiary, hbne,
    commitRelationship, commitThrow, hct', hft', hd, hn, dsAdd,
    safeInvokeDelayMs]
  simp [hbne, hsel]
  exact hne

/-- Any single run of the commit step either leaves both edge collections
unchanged or appends exactly one new edge, built from the clicked node `c`
and the recorded pending child `f`, to each of them. -/
theorem commitRelationship_edge_changes
    (s : CanvasState) (rid c : String) :
    ((commitRelationship s rid c).1.edgesDataset = s.edgesDataset ∧
     (commitRelationship s rid c).1.graphEdges = s.graphEdges) ∨
    (∃ f, s.selectedNodeId = some f ∧
      (commitRelationship s rid c).1.edgesDataset =
        s.edgesDataset ++
          [{ id := rid, fromId := c, toId := f, label := s.relationshipType }] ∧
      (commitRelationship s rid c).1.graphEdges =
        s.graphEdges ++
          [{ id := rid, source := some c, target := some f,
             label := s.relationshipType }]) := by
  unfold commitRelationship commitThrow
  split
  · left; exact ⟨rfl, rfl⟩
  · split
    · left; exact ⟨rfl, rfl⟩
    · rename_i f hsel
      split
      · left; exact ⟨rfl, rfl⟩
      · by_cases hready : (s.datasetsInit && s.networkInit) = true
        · right
          exact ⟨f, hsel, by simp [hready, dsAdd], by simp [hready]⟩
        · left
          constructor <;> simp [hready]

/-- Any single click either leaves both edge collections unchanged or (in
the commit branch, guarded by `selectedNodeId !== clickedNodeId`) appends
exactly one edge whose endpoints are the distinct pending child `f` and
clicked node `c`. -/
theorem handleNetworkClick_edge_changes
    (s : CanvasState) (rid : String) (params : ClickParams) :
    ((handleNetworkClick s rid params).1.edgesDataset = s.edgesDataset ∧
     (handleNetworkClick s rid params).1.graphEdges = s.graphEdges) ∨
    (∃ c f, s.selectedNodeId = some f ∧ f ≠ c ∧
      (handleNetworkClick s rid params).1.edgesDataset =
        s.edgesDataset ++
          [{ id := rid, fromId := c, toId := f, label := s.relationshipType }] ∧
      (handleNetworkClick s rid params).1.graphEdges =
        s.graphEdges ++
          [{ id := rid, source := some c, target := some f,
             label := s.relationshipType }]) := by
  unfold handleNetworkClick
  split
  · left; exact ⟨rfl, rfl⟩
  · split
    · split
      · left; exact ⟨rfl, rfl⟩
      · left; exact ⟨rfl, rfl⟩
    · split
      · left; exact ⟨rfl, rfl⟩
      · split
        · split
          · split
            · left; exact ⟨rfl, rfl⟩
            · split
              · rename_i hbne
                rcases commitRelationship_edge_changes s rid _ with
                  h | ⟨f, hsel, h1, h2⟩
                · left; exact h
                · right
                  refine ⟨_, f, hsel, ?_, h1, h2⟩
                  intro hfc
                  rw [hsel, hfc] at hbne
                  simp at hbne
              · left; exact ⟨rfl, rfl⟩
          · left; exact ⟨rfl, rfl⟩
        · split
          · split
            · left; exact ⟨rfl, rfl⟩
            · left; exact ⟨rfl, rfl⟩
          · left; exact ⟨rfl, rfl⟩

/-! ### Key-set lemmas for the DataSet operations -/

/-- Removing by id commutes with projecting to ids. -/
theorem map_key_dsRemove {α : Type} (key : α → String) (ids : List String)
    (ds : List α) :
    (dsRemove key ids ds).map key =
      (ds.map key).filter (fun i => !(ids.contains i)) := by
  unfold dsRemove
  rw [List.filter_map]
  rfl

/-- A single upsert either keeps the id list unchanged (in-place update)
or appends the new id. -/
theorem map_key_dsUpdateOne {α : Type} (key : α → String) (ds : List α)
    (item : α) :
    (dsUpdateOne key ds item).map key =
      if ds.any (fun x => key x == key item) then ds.map key
      else ds.map key ++ [key item] := by
  unfold dsUpdateOne
  split
  · rw [List.map_map]
    apply List.map_congr_left
    intro x _
    by_cases hx : (key x == key item) = true
    · simp only [Function.comp]
      rw [if_pos hx]
      exact (eq_of_beq hx).symm
    · simp only [Function.comp]
      rw [if_neg hx]
  · simp

/-- Membership in the id list after a single upsert. -/
theorem mem_map_dsUpdateOne {α : Type} (key : α → String) (ds : List α)
    (item : α) (i : String) :
    i ∈ (dsUpdateOne key ds item).map key ↔
      i ∈ ds.map key ∨ i = key item := by
  rw [map_key_dsUpdateOne]
  split
  · rename_i h
    simp only [List.any_eq_true] at h
    obtain ⟨x, hx, hbeq⟩ := h
    constructor
    · exact Or.inl
    · rintro (h | rfl)
      · exact h
      · exact List.mem_map.mpr ⟨x, hx, eq_of_beq hbeq⟩
  · simp

/-- A single upsert never introduces a duplicate id. -/
theorem nodup_map_dsUpdateOne {α : Type} (key : α → String) (ds : List α)
    (item : α) (h : (ds.map key).Nodup) :
    ((dsUpdateOne key ds item).map key).Nodup := by
  rw [map_key_dsUpdateOne]
  split
  · exact h
  · rename_i hany
    simp only [List.any_eq_true, not_exists, not_and] at hany
    simp only [List.nodup_append, List.nodup_cons, List.nodup_nil]
    refine ⟨h, ⟨by simp, by simp⟩, ?_⟩
    intro a ha
    simp only [List.mem_singleton]
    intro hk
    obtain ⟨x, hx, rfl⟩ := List.mem_map.mp ha
    exact hany x hx (by rw [hk]; exact beq_self_eq_true _)

/-- Unfolding one step of the bulk upsert. -/
theorem dsUpdate_cons {α : Type} (key : α → String) (a : α) (as : List α)
    (ds : List α) :
    dsUpdate key (a :: as) ds = dsUpdate key as (dsUpdateOne key ds a) := rfl

/-- Membership in the id list after a bulk upsert. -/
theorem mem_map_dsUpdate {α : Type} (key : α → String) (items ds : List α)
    (i : String) :
    i ∈ (dsUpdate key items ds).map key ↔
      i ∈ ds.map key ∨ i ∈ items.map key := by
  induction items generalizing ds with
  | nil => simp [dsUpdate]
  | cons a as ih =>
      rw [dsUpdate_cons, ih, mem_map_dsUpdateOne]
      simp only [List.map_cons, List.mem_cons]
      tauto

/-- A bulk upsert never introduces a duplicate id. -/
theorem nodup_map_dsUpdate {α : Type} (key : α → String) (items ds : List α)
    (h : (ds.map key).Nodup) :
    ((dsUpdate key items ds).map key).Nodup := by
  induction items generalizing ds with
  | nil => exact h
  | cons a as ih =>
      rw [dsUpdate_cons]
      exact ih _ (nodup_map_dsUpdateOne key ds a h)

/-- The removal diff contains exactly the current ids that are absent from
the new snapshot. -/
theorem mem_idsToRemove {α : Type} (key : α → String) (newItems ds : List α)
    (i : String) :
    i ∈ idsToRemove key newItems ds ↔
      i ∈ ds.map key ∧ i ∉ newItems.map key := by
  simp [idsToRemove, dsGetIds, List.mem_filter]

/-- After a diff application the id set is exactly the snapshot's id set. -/
theorem mem_map_diffApply {α : Type} (key : α → String) (newItems ds : List α)
    (i : String) :
    i ∈ (diffApply key newItems ds).map key ↔ i ∈ newItems.map key := by
  unfold diffApply
  rw [mem_map_dsUpdate, map_key_dsRemove]
  simp only [List.mem_filter, Bool.not_eq_true']
  constructor
  · rintro (⟨hds, hc⟩ | h)
    · by_contra hnew
      have hmem : i ∈ idsToRemove key newItems ds :=
        (mem_idsToRemove key newItems ds i).mpr ⟨hds, hnew⟩
      have helem : (idsToRemove key newItems ds).contains i = true :=
        List.elem_eq_true_of_mem hmem
      rw [helem] at hc
      cases hc
    · exact h
  · intro h
    exact Or.inr h

/-- A diff application never introduces a duplicate id. -/
theorem nodup_map_diffApply {α : Type} (key : α → String) (newItems ds : List α)
    (h : (ds.map key).Nodup) :
    ((diffApply key newItems ds).map key).Nodup := by
  unfold diffApply
  apply nodup_map_dsUpdate
  rw [map_key_dsRemove]
  exact h.filter _

/-- The node dataset after a refresh data path: diff-applied when the
render surface exists, untouched otherwise. -/
theorem updateGraphApply_nodesDataset (data : BackendGraph) (s : CanvasState) :
    (updateGraphApply data s).nodesDataset =
      if s.datasetsInit && s.networkInit then
        diffApply ProcessedNode.id (data.nodes.map processNode) s.nodesDataset
      else s.nodesDataset := by
  unfold updateGraphApply
  split <;> rfl

/-- The edge dataset after a refresh data path. -/
theorem updateGraphApply_edgesDataset (data : BackendGraph) (s : CanvasState) :
    (updateGraphApply data s).edgesDataset =
      if s.datasetsInit && s.networkInit then
        diffApply VisEdge.id (data.edges.map processVisEdge) s.edgesDataset
      else s.edgesDataset := by
  unfold updateGraphApply
  split <;> rfl

/-- A refresh does not change the initialization flags. -/
theorem updateGraphApply_flags (data : BackendGraph) (s : CanvasState) :
    (updateGraphApply data s).datasetsInit = s.datasetsInit ∧
    (updateGraphApply data s).networkInit = s.networkInit := by
  unfold updateGraphApply
  split <;> exact ⟨rfl, rfl⟩

/-- A refresh replaces the mirror wholesale by the processed snapshot. -/
theorem updateGraphApply_graphData (data : BackendGraph) (s : CanvasState) :
    (updateGraphApply data s).graphNodes = data.nodes.map processNode ∧
    (updateGraphApply data s).graphEdges = data.edges.map processMirrorEdge := by
  unfold updateGraphApply
  split <;> exact ⟨rfl, rfl⟩

/-- C4: for every refresh against an existing mirror, the applied diff is
computed independently for nodes and edges as
`idsToRemove = currentIds − newIds` and `idsToUpsert = newIds`; all
removals are applied to the render surface before any upserts (the result
is the upsert of the snapshot into the removal's output); and ids present
in both snapshots survive the removal step and the whole refresh — they
are updated in place, never removed and re-added. -/
theorem C4_refresh_diff (data : BackendGraph) (s : CanvasState)
    (hd : s.datasetsInit = true) (hn : s.networkInit = true) :
    (∀ i,
      i ∈ idsToRemove ProcessedNode.id (data.nodes.map processNode)
            s.nodesDataset ↔
      (i ∈ s.nodesDataset.map ProcessedNode.id ∧
       i ∉ (data.nodes.map processNode).map ProcessedNode.id)) ∧
    (∀ i,
      i ∈ idsToRemove VisEdge.id (data.edges.map processVisEdge)
            s.edgesDataset ↔
      (i ∈ s.edgesDataset.map VisEdge.id ∧
       i ∉ (data.edges.map processVisEdge).map VisEdge.id)) ∧
    (updateGraphApply data s).nodesDataset =
      dsUpdate ProcessedNode.id (data.nodes.map processNode)
        (dsRemove ProcessedNode.id
          (idsToRemove ProcessedNode.id (data.nodes.map processNode)
            s.nodesDataset)
          s.nodesDataset) ∧
    (updateGraphApply data s).edgesDataset =
      dsUpdate VisEdge.id (data.edges.map processVisEdge)
        (dsRemove VisEdge.id
          (idsToRemove VisEdge.id (data.edges.map processVisEdge)
            s.edgesDataset)
          s.edgesDataset) ∧
    (∀ i, i ∈ s.nodesDataset.map ProcessedNode.id →
      i ∈ (data.nodes.map processNode).map ProcessedNode.id →
      (i ∈ (dsRemove ProcessedNode.id
              (idsToRemove ProcessedNode.id (data.nodes.map processNode)
                s.nodesDataset)
              s.nodesDataset).map ProcessedNode.id ∧
       i ∈ (updateGraphApply data s).nodesDataset.map ProcessedNode.id)) ∧
    (∀ i, i ∈ s.edgesDataset.map VisEdge.id →
      i ∈ (data.edges.map processVisEdge).map VisEdge.id →
      (i ∈ (dsRemove VisEdge.id
              (idsToRemove VisEdge.id (data.edges.map processVisEdge)
                s.edgesDataset)
              s.edgesDataset).map VisEdge.id ∧
       i ∈ (updateGraphApply data s).edgesDataset.map VisEdge.id)) := by
  have hflag : (s.datasetsInit && s.networkInit) = true := by
    rw [hd, hn]; rfl
  have hn1 := updateGraphApply_nodesDataset data s
  have he1 := updateGraphApply_edgesDataset data s
  rw [if_pos hflag] at hn1 he1
  have survive :
      ∀ {α : Type} (key : α → String) (newItems ds : List α) (i : String),
        i ∈ ds.map key → i ∈ newItems.map key →
        i ∈ (dsRemove key (idsToRemove key newItems ds) ds).map key := by
    intro α key newItems ds i hds hnew
    rw [map_key_dsRemove]
    rw [List.mem_filter]
    refine ⟨hds, ?_⟩
    have hnot : ¬ ((idsToRemove key newItems ds).contains i = true) := by
      intro hc
      have := List.mem_of_elem_eq_true hc
      rw [mem_idsToRemove] at this
      exact this.2 hnew
    simp only [Bool.not_eq_true] at hnot
    rw [hnot]
    rfl
  refine ⟨?_, ?_, ?_, ?_, ?_, ?_⟩
  · intro i; exact mem_idsToRemove _ _ _ i
  · intro i; exact mem_idsToRemove _ _ _ i
  · rw [hn1]; rfl
  · rw [he1]; rfl
  · intro i hds hnew
    refine ⟨survive _ _ _ i hds hnew, ?_⟩
    rw [hn1, mem_map_diffApply]
    exact hnew
  · intro i hds hnew
    refine ⟨survive _ _ _ i hds hnew, ?_⟩
    rw [he1, mem_map_diffApply]
    exact hnew

/-- C4 witness: in the concrete scenario, node id `d1` — present in both
the current dataset and the new snapshot — survives the removal step and
the full refresh. -/
theorem C4_refresh_diff_witness :
    "d1" ∈ (dsRemove ProcessedNode.id
        (idsToRemove ProcessedNode.id (snapshotA.nodes.map processNode)
          sAwaitParent.nodesDataset)
        sAwaitParent.nodesDataset).map ProcessedNode.id ∧
    "d1" ∈ (updateGraphApply snapshotA sAwaitParent).nodesDataset.map
        ProcessedNode.id :=
  (C4_refresh_diff snapshotA sAwaitParent rfl rfl).2.2.2.2.1 "d1"
    (by decide) (by decide)

/-- C5: the refresh diff application is idempotent — applying the same
snapshot twice yields the same mirror and the same render-surface id sets
as applying it once, and no duplicate ids are introduced. -/
theorem C5_refresh_idempotent (data : BackendGraph) (s : CanvasState) :
    (∀ i,
      i ∈ (updateGraphApply data (updateGraphApply data s)).nodesDataset.map
            ProcessedNode.id ↔
      i ∈ (updateGraphApply data s).nodesDataset.map ProcessedNode.id) ∧
    (∀ i,
      i ∈ (updateGraphApply data (updateGraphApply data s)).edgesDataset.map
            VisEdge.id ↔
      i ∈ (updateGraphApply data s).edgesDataset.map VisEdge.id) ∧
    (updateGraphApply data (updateGraphApply data s)).graphNodes =
      (updateGraphApply data s).graphNodes ∧
    (updateGraphApply data (updateGraphApply data s)).graphEdges =
      (updateGraphApply data s).graphEdges ∧
    ((s.nodesDataset.map ProcessedNode.id).Nodup →
      ((updateGraphApply data s).nodesDataset.map ProcessedNode.id).Nodup ∧
      ((updateGraphApply data (updateGraphApply data s)).nodesDataset.map
          ProcessedNode.id).Nodup) ∧
    ((s.edgesDataset.map VisEdge.id).Nodup →
      ((updateGraphApply data s).edgesDataset.map VisEdge.id).Nodup ∧
      ((updateGraphApply data (updateGraphApply data s)).edgesDataset.map
          VisEdge.id).Nodup) := by
  have hfl := updateGraphApply_flags data s
  have hn1 := updateGraphApply_nodesDataset data s
  have he1 := updateGraphApply_edgesDataset data s
  have hn2 := updateGraphApply_nodesDataset data (updateGraphApply data s)
  have he2 := updateGraphApply_edgesDataset data (updateGraphApply data s)
  rw [hfl.1, hfl.2] at hn2 he2
  by_cases h : (s.datasetsInit && s.networkInit) = true
  · rw [if_pos h] at hn1 he1 hn2 he2
    refine ⟨?_, ?_, ?_, ?_, ?_, ?_⟩
    · intro i
      simp only [hn2, hn1, mem_map_diffApply]
    · intro i
      simp only [he2, he1, mem_map_diffApply]
    · exact ((updateGraphApply_graphData data _).1).trans
        ((updateGraphApply_graphData data s).1).symm
    · exact ((updateGraphApply_graphData data _).2).trans
        ((updateGraphApply_graphData data s).2).symm
    · intro hnd
      have h1 : ((updateGraphApply data s).nodesDataset.map
          ProcessedNode.id).Nodup := by
        rw [hn1]; exact nodup_map_diffApply _ _ _ hnd
      exact ⟨h1, by
        rw [hn2, hn1]; rw [hn1] at h1; exact nodup_map_diffApply _ _ _ h1⟩
    · intro hnd
      have h1 : ((updateGraphApply data s).edgesDataset.map VisEdge.id).Nodup := by
        rw [he1]; exact nodup_map_diffApply _ _ _ hnd
      exact ⟨h1, by
        rw [he2, he1]; rw [he1] at h1; exact nodup_map_diffApply _ _ _ h1⟩
  · rw [if_neg h] at hn1 he1 hn2 he2
    refine ⟨?_, ?_, ?_, ?_, ?_, ?_⟩
    · intro i; rw [hn2, hn1]
    · intro i; rw [he2, he1]
    · exact ((updateGraphApply_graphData data _).1).trans
        ((updateGraphApply_graphData data s).1).symm
    · exact ((updateGraphApply_graphData data _).2).trans
        ((updateGraphApply_graphData data s).2).symm
    · intro hnd
      rw [hn2, hn1]
      exact ⟨hnd, hnd⟩
    · intro hnd
      rw [he2, he1]
      exact ⟨hnd, hnd⟩

/-- C5 witness: on the concrete scenario the refreshed node dataset and
its second refresh both carry duplicate-free id lists. -/
theorem C5_refresh_idempotent_witness :
    ((updateGraphApply snapshotA sAwaitParent).nodesDataset.map
        ProcessedNode.id).Nodup ∧
    ((updateGraphApply snapshotA
        (updateGraphApply snapshotA sAwaitParent)).nodesDataset.map
        ProcessedNode.id).Nodup :=
  (C5_refresh_idempotent snapshotA sAwaitParent).2.2.2.2.1 (by decide)

/-- C1 counterexample: in the spec's own scenario (pending child `d1`,
click on `d2`), the edge inserted into the mirror does NOT have
`source = "d1"`, `target = "d2"` as the claim states; it has
`source = "d2"` (the clicked parent) and `target = "d1"` (the pending
child). -/
theorem C1_counterexample :
    (handleNetworkClick sAwaitParent "r1" clickD2).1.graphEdges.any
      (fun e => e.source == some "d1" && e.target == some "d2") = false ∧
    (handleNetworkClick sAwaitParent "r1" clickD2).1.graphEdges.any
      (fun e => e.source == some "d2" && e.target == some "d1" &&
        e.label == "depends_on") = true := by
  decide

/-- C1 (amended): for every commit step, the edge inserted optimistically
into the mirror has `source` equal to the clicked (parent) node id and
`target` equal to the pending child's node id, with the current selector
value as its relationship label, and the render-surface edge runs from the
clicked parent to the pending child with the same label. -/
theorem C1_commit_edge_record
    (s : CanvasState) (rid c f : String) (node : ProcessedNode)
    (hmode : s.isCreatingRelationship = true)
    (hfirst : s.hasSelectedFirstNode = true)
    (hsel : s.selectedNodeId = some f)
    (hne : f ≠ c)
    (hfind : s.graphNodes.find? (fun n => n.id == c) = some node)
    (hdiary : isDiaryNode node = true)
    (hct : jsTrim c ≠ "")
    (hft : jsTrim f ≠ "")
    (hd : s.datasetsInit = true) (hnet : s.networkInit = true) :
    (handleNetworkClick s rid { nodes := [c], edges := [] }).1.graphEdges =
      s.graphEdges ++
        [{ id := rid, source := some c, target := some f,
           label := s.relationshipType }] ∧
    (handleNetworkClick s rid { nodes := [c], edges := [] }).1.edgesDataset =
      s.edgesDataset ++
        [{ id := rid, fromId := c, toId := f,
           label := s.relationshipType }] := by
  rw [handleNetworkClick_commit s rid c f node hmode hfirst hsel hne hfind
    hdiary hct hft hd hnet]
  exact ⟨rfl, rfl⟩

/-- C1 witness: the amended statement evaluated on the spec's scenario. -/
theorem C1_commit_edge_record_witness :
    (handleNetworkClick sAwaitParent "r1"
        { nodes := ["d2"], edges := [] }).1.graphEdges =
      sAwaitParent.graphEdges ++
        [{ id := "r1", source := some "d2", target := some "d1",
           label := sAwaitParent.relationshipType }] ∧
    (handleNetworkClick sAwaitParent "r1"
        { nodes := ["d2"], edges := [] }).1.edgesDataset =
      sAwaitParent.edgesDataset ++
        [{ id := "r1", fromId := "d2", toId := "d1",
           label := sAwaitParent.relationshipType }] :=
  C1_commit_edge_record sAwaitParent "r1" "d2" "d1" nodeD2 rfl rfl rfl
    (by decide) rfl rfl (by decide) (by decide) rfl rfl

/-- C2: the claim says a duplicate pick is rejected entirely locally with
no backend call and an unchanged mirror.  The code defines
`relationshipExists` for exactly this check but never calls it: on the
concrete duplicate pick (`d1`–`d2` already related, pending child `d1`,
click `d2`), `relationshipExists` reports the duplicate, yet the handler
still issues the `add_relationship` backend request, appends a second
edge to the mirror, and shows no status message. -/
theorem C2_duplicate_pick_not_rejected :
    relationshipExists sDup "d1" "d2" = true ∧
    (handleNetworkClick sDup "r1" clickD2).2.contains
      (Effect.invokeBackend 10000 "add_relationship" "r1" "d2" "d1"
        "depends_on") = true ∧
    (handleNetworkClick sDup "r1" clickD2).1.graphEdges =
      sDup.graphEdges ++
        [{ id := "r1", source := some "d2", target := some "d1",
           label := "depends_on" }] ∧
    (handleNetworkClick sDup "r1" clickD2).1.statusMessage = none := by
  decide

/-- C3: for every optimistic insertion at commit followed by a failure of
the asynchronous create-relationship request, the failure handler removes
exactly the edge with the generated id from the mirror and the render
surface and surfaces the failure status with the error detail: the edge
collections return to their exact pre-insertion values and the node
collections are untouched. -/
theorem C3_rollback_restores
    (s : CanvasState) (rid c f err : String) (node : ProcessedNode)
    (hmode : s.isCreatingRelationship = true)
    (hfirst : s.hasSelectedFirstNode = true)
    (hsel : s.selectedNodeId = some f)
    (hne : f ≠ c)
    (hfind : s.graphNodes.find? (fun n => n.id == c) = some node)
    (hdiary : isDiaryNode node = true)
    (hct : jsTrim c ≠ "")
    (hft : jsTrim f ≠ "")
    (hd : s.datasetsInit = true) (hnet : s.networkInit = true)
    (hfresh1 : rid ∉ s.edgesDataset.map VisEdge.id)
    (hfresh2 : rid ∉ s.graphEdges.map MirrorEdge.id) :
    rid ∈ (handleNetworkClick s rid
        { nodes := [c], edges := [] }).1.edgesDataset.map VisEdge.id ∧
    rid ∈ (handleNetworkClick s rid
        { nodes := [c], edges := [] }).1.graphEdges.map MirrorEdge.id ∧
    (commitThenFail s rid { nodes := [c], edges := [] } err).1.edgesDataset =
      s.edgesDataset ∧
    (commitThenFail s rid { nodes := [c], edges := [] } err).1.graphEdges =
      s.graphEdges ∧
    (commitThenFail s rid { nodes := [c], edges := [] } err).1.nodesDataset =
      s.nodesDataset ∧
    (commitThenFail s rid { nodes := [c], edges := [] } err).1.graphNodes =
      s.graphNodes ∧
    (commitThenFail s rid { nodes := [c], edges := [] } err).1.statusMessage =
      some (commitFailMsg err) := by
  have hcommit := handleNetworkClick_commit s rid c f node hmode hfirst hsel
    hne hfind hdiary hct hft hd hnet
  have hkeepV : ∀ e ∈ s.edgesDataset, (!(e.id == rid)) = true := by
    intro e he
    have : e.id ≠ rid := fun h => hfresh1 (List.mem_map.mpr ⟨e, he, h⟩)
    simp [this]
  have hkeepM : ∀ e ∈ s.graphEdges, (!(MirrorEdge.id e == rid)) = true := by
    intro e he
    have : e.id ≠ rid := fun h => hfresh2 (List.mem_map.mpr ⟨e, he, h⟩)
    simp [this]
  refine ⟨?_, ?_, ?_, ?_, ?_, ?_, ?_⟩
  · rw [hcommit]
    simp
  · rw [hcommit]
    simp
  · simp only [commitThenFail, hcommit, addRelationshipFailure, hd]
    rw [if_pos trivial]
    show List.filter _ (s.edgesDataset ++ _) = s.edgesDataset
    rw [List.filter_append, List.filter_eq_self.mpr hkeepV]
    simp
  · simp only [commitThenFail, hcommit, addRelationshipFailure, hd]
    rw [if_pos trivial]
    show List.filter _ (s.graphEdges ++ _) = s.graphEdges
    rw [List.filter_append, List.filter_eq_self.mpr hkeepM]
    simp
  · simp only [commitThenFail, hcommit, addRelationshipFailure, hd]
    rw [if_pos trivial]
  · simp only [commitThenFail, hcommit, addRelationshipFailure, hd]
    rw [if_pos trivial]
  · simp [commitThenFail, hcommit, addRelationshipFailure, hd]

/-- C3 witness: rollback symmetry evaluated on the spec's scenario with a
concrete failure detail. -/
theorem C3_rollback_witness :
    "r1" ∈ (handleNetworkClick sAwaitParent "r1"
        { nodes := ["d2"], edges := [] }).1.edgesDataset.map VisEdge.id ∧
    "r1" ∈ (handleNetworkClick sAwaitParent "r1"
        { nodes := ["d2"], edges := [] }).1.graphEdges.map MirrorEdge.id ∧
    (commitThenFail sAwaitParent "r1" { nodes := ["d2"], edges := [] }
        "backend unavailable").1.edgesDataset = sAwaitParent.edgesDataset ∧
    (commitThenFail sAwaitParent "r1" { nodes := ["d2"], edges := [] }
        "backend unavailable").1.graphEdges = sAwaitParent.graphEdges ∧
    (commitThenFail sAwaitParent "r1" { nodes := ["d2"], edges := [] }
        "backend unavailable").1.nodesDataset = sAwaitParent.nodesDataset ∧
    (commitThenFail sAwaitParent "r1" { nodes := ["d2"], edges := [] }
        "backend unavailable").1.graphNodes = sAwaitParent.graphNodes ∧
    (commitThenFail sAwaitParent "r1" { nodes := ["d2"], edges := [] }
        "backend unavailable").1.statusMessage =
      some (commitFailMsg "backend unavailable") :=
  C3_rollback_restores sAwaitParent "r1" "d2" "d1" "backend unavailable"
    nodeD2 rfl rfl rfl (by decide) rfl rfl (by decide) (by decide) rfl rfl
    (by decide) (by decide)

/-- C6: clicking a tag-typed node while the authoring workflow is active
(in either the awaiting-child or awaiting-parent phase) is rejected with a
user-visible message; the pending child, the phase flag and the authoring
mode are unchanged, the edge collections are untouched, and no backend
call or host event is issued. -/
theorem C6_tag_click_rejected
    (s : CanvasState) (rid c : String) (node : ProcessedNode)
    (hmode : s.isCreatingRelationship = true)
    (hfind : s.graphNodes.find? (fun n => n.id == c) = some node)
    (hdiary : isDiaryNode node = false)
    (htag : isTagNode node = true) :
    (handleNetworkClick s rid { nodes := [c], edges := [] }).1.selectedNodeId =
      s.selectedNodeId ∧
    (handleNetworkClick s rid
        { nodes := [c], edges := [] }).1.hasSelectedFirstNode =
      s.hasSelectedFirstNode ∧
    (handleNetworkClick s rid
        { nodes := [c], edges := [] }).1.isCreatingRelationship = true ∧
    (handleNetworkClick s rid { nodes := [c], edges := [] }).1.edgesDataset =
      s.edgesDataset ∧
    (handleNetworkClick s rid { nodes := [c], edges := [] }).1.graphEdges =
      s.graphEdges ∧
    (handleNetworkClick s rid { nodes := [c], edges := [] }).1.statusMessage =
      some tagNodeMsg ∧
    (handleNetworkClick s rid { nodes := [c], edges := [] }).2 = [] := by
  simp only [handleNetworkClick, hfind, hdiary, htag, hmode]
  simp [hmode]

/-- C6 witness: the tag click `t1` in the spec's awaiting-parent
scenario. -/
theorem C6_tag_click_witness :
    (handleNetworkClick sAwaitParent "r1"
        { nodes := ["t1"], edges := [] }).1.selectedNodeId =
      sAwaitParent.selectedNodeId ∧
    (handleNetworkClick sAwaitParent "r1"
        { nodes := ["t1"], edges := [] }).1.hasSelectedFirstNode =
      sAwaitParent.hasSelectedFirstNode ∧
    (handleNetworkClick sAwaitParent "r1"
        { nodes := ["t1"], edges := [] }).1.isCreatingRelationship = true ∧
    (handleNetworkClick sAwaitParent "r1"
        { nodes := ["t1"], edges := [] }).1.edgesDataset =
      sAwaitParent.edgesDataset ∧
    (handleNetworkClick sAwaitParent "r1"
        { nodes := ["t1"], edges := [] }).1.graphEdges =
      sAwaitParent.graphEdges ∧
    (handleNetworkClick sAwaitParent "r1"
        { nodes := ["t1"], edges := [] }).1.statusMessage =
      some tagNodeMsg ∧
    (handleNetworkClick sAwaitParent "r1"
        { nodes := ["t1"], edges := [] }).2 = [] :=
  C6_tag_click_rejected sAwaitParent "r1" "t1" nodeT1 rfl rfl rfl rfl

/-- C7: the commit step never inserts a self-loop — for any click, every
edge newly added to the render surface has distinct endpoints and every
edge newly pushed onto the mirror has distinct `source`/`target`; and in
the awaiting-parent phase, clicking the node equal to the pending child is
rejected with the select-a-different-node message, with no transition, no
change to the pending child and no effect issued. -/
theorem C7_no_self_loop (s : CanvasState) (rid : String)
    (params : ClickParams) :
    (∀ e : VisEdge, e ∈ (handleNetworkClick s rid params).1.edgesDataset →
      e ∉ s.edgesDataset → e.fromId ≠ e.toId) ∧
    (∀ e : MirrorEdge, e ∈ (handleNetworkClick s rid params).1.graphEdges →
      e ∉ s.graphEdges → e.source ≠ e.target) ∧
    (∀ c node, params.edges = [] → params.nodes = [c] →
      s.isCreatingRelationship = true → s.hasSelectedFirstNode = true →
      s.selectedNodeId = some c →
      s.graphNodes.find? (fun n => n.id == c) = some node →
      isDiaryNode node = true →
      ((handleNetworkClick s rid params).1.selectedNodeId =
        s.selectedNodeId ∧
       (handleNetworkClick s rid params).1.hasSelectedFirstNode =
        s.hasSelectedFirstNode ∧
       (handleNetworkClick s rid params).1.statusMessage = some sameNodeMsg ∧
       (handleNetworkClick s rid params).2 = [])) := by
  refine ⟨?_, ?_, ?_⟩
  · intro e he hnotin
    rcases handleNetworkClick_edge_changes s rid params with
      ⟨h1, _⟩ | ⟨c, f, hsel, hne, h1, h2⟩
    · rw [h1] at he
      exact absurd he hnotin
    · rw [h1] at he
      rcases List.mem_append.mp he with h | h
      · exact absurd h hnotin
      · rcases List.mem_singleton.mp h with rfl
        intro hEq
        exact hne hEq.symm
  · intro e he hnotin
    rcases handleNetworkClick_edge_changes s rid params with
      ⟨_, h2⟩ | ⟨c, f, hsel, hne, h1, h2⟩
    · rw [h2] at he
      exact absurd he hnotin
    · rw [h2] at he
      rcases List.mem_append.mp he with h | h
      · exact absurd h hnotin
      · rcases List.mem_singleton.mp h with rfl
        intro hEq
        simp only [Option.some.injEq] at hEq
        exact hne hEq.symm
  · intro c node hpe hpn hmode hfirst hsel hfind hdiary
    have hbne : (s.selectedNodeId != some c) = false := by
      rw [hsel]
      simp
    obtain ⟨pn, pe⟩ := params
    simp only at hpe hpn
    subst hpe hpn
    simp only [handleNetworkClick, hfind, hdiary, hmode, hfirst, hbne]
    simp

/-- C7 witness: the freshly inserted scenario edge has distinct endpoints,
and re-clicking the pending child `d1` is rejected without transition or
effects. -/
theorem C7_no_self_loop_witness :
    ({ id := "r1", fromId := "d2", toId := "d1",
       label := "depends_on" } : VisEdge).fromId ≠
      ({ id := "r1", fromId := "d2", toId := "d1",
         label := "depends_on" } : VisEdge).toId ∧
    (handleNetworkClick sAwaitParent "r1" clickD1).1.selectedNodeId =
      sAwaitParent.selectedNodeId ∧
    (handleNetworkClick sAwaitParent "r1" clickD1).1.hasSelectedFirstNode =
      sAwaitParent.hasSelectedFirstNode ∧
    (handleNetworkClick sAwaitParent "r1" clickD1).1.statusMessage =
      some sameNodeMsg ∧
    (handleNetworkClick sAwaitParent "r1" clickD1).2 = [] :=
  ⟨(C7_no_self_loop sAwaitParent "r1" clickD2).1
      { id := "r1", fromId := "d2", toId := "d1", label := "depends_on" }
      (by decide) (by decide),
   (C7_no_self_loop sAwaitParent "r1" clickD1).2.2 "d1" nodeD1 rfl rfl rfl
      rfl rfl rfl rfl⟩

/-- C8 counterexample: the error field is never cleared by the component,
so a refresh that shows the loading indicator issued after an earlier
failure has `loading = true` while `error` is still set — the loading and
error flags are both set at the same time while that fetch is in flight,
refuting the mutual-exclusion clause of the claim. -/
theorem C8_counterexample :
    (updateGraphStart true sErrLoad).loading = true ∧
    (updateGraphStart true sErrLoad).error =
      some "Failed to load graph data" := by
  decide

/-- C8 (amended): for every snapshot fetch that fails, the mirror and the
render surface are left exactly as they were (no partial wipe) and an
error state is surfaced; a failed initial load always ends with the
loading flag cleared, and a failed refresh ends with it cleared whenever
the refresh set it (or it was already clear), so the flags are not both
set at fetch completion.  (The original mutual-exclusion clause fails
mid-flight because `error` is never cleared — see the counterexample.) -/
theorem C8_fetch_failure (s : CanvasState) (showLoading : Bool) :
    (loadGraphDataFail (loadGraphDataStart s)).graphNodes = s.graphNodes ∧
    (loadGraphDataFail (loadGraphDataStart s)).graphEdges = s.graphEdges ∧
    (loadGraphDataFail (loadGraphDataStart s)).nodesDataset = s.nodesDataset ∧
    (loadGraphDataFail (loadGraphDataStart s)).edgesDataset = s.edgesDataset ∧
    (loadGraphDataFail (loadGraphDataStart s)).error =
      some "Failed to load graph data" ∧
    (loadGraphDataFail (loadGraphDataStart s)).loading = false ∧
    (updateGraphFail showLoading (updateGraphStart showLoading s)).graphNodes =
      s.graphNodes ∧
    (updateGraphFail showLoading (updateGraphStart showLoading s)).graphEdges =
      s.graphEdges ∧
    (updateGraphFail showLoading
        (updateGraphStart showLoading s)).nodesDataset = s.nodesDataset ∧
    (updateGraphFail showLoading
        (updateGraphStart showLoading s)).edgesDataset = s.edgesDataset ∧
    (updateGraphFail showLoading (updateGraphStart showLoading s)).error =
      some "Failed to update graph" ∧
    (showLoading = true ∨ s.loading = false →
      (updateGraphFail showLoading
          (updateGraphStart showLoading s)).loading = false) := by
  cases showLoading <;>
    simp [loadGraphDataFail, loadGraphDataStart, updateGraphFail,
      updateGraphStart]

/-- C8 witness: a failed refresh with the loading indicator ends with the
loading flag cleared. -/
theorem C8_fetch_failure_witness :
    (updateGraphFail true
        (updateGraphStart true sAwaitParent)).loading = false :=
  (C8_fetch_failure sAwaitParent true).2.2.2.2.2.2.2.2.2.2.2 (Or.inl rfl)

/-- C9 counterexample: the `add_relationship` request issued by the commit
carries the 10000 ms artificial pause `safeInvoke` awaits before invoking
the backend — it is never issued with zero delay, refuting the claim's
"no intervening delay" clause. -/
theorem C9_counterexample :
    (handleNetworkClick sAwaitParent "r1" clickD2).2.contains
      (Effect.invokeBackend 10000 "add_relationship" "r1" "d2" "d1"
        "depends_on") = true ∧
    (handleNetworkClick sAwaitParent "r1" clickD2).2.contains
      (Effect.invokeBackend 0 "add_relationship" "r1" "d2" "d1"
        "depends_on") = false ∧
    safeInvokeDelayMs "add_relationship" = 10000 := by
  decide

/-- C9 (amended): within one commit the optimistic insertion into the
render surface and the mirror happens synchronously before the
persistence request — the commit's effect trace places both mutations
strictly before the `safeInvoke` call — and the call is made immediately
after the mutation; however `safeInvoke` awaits a 10000 ms timer for
`add_relationship` before performing the backend invoke, so the request
is not fired without delay. -/
theorem C9_commit_trace
    (s : CanvasState) (rid c f : String) (node : ProcessedNode)
    (hmode : s.isCreatingRelationship = true)
    (hfirst : s.hasSelectedFirstNode = true)
    (hsel : s.selectedNodeId = some f)
    (hne : f ≠ c)
    (hfind : s.graphNodes.find? (fun n => n.id == c) = some node)
    (hdiary : isDiaryNode node = true)
    (hct : jsTrim c ≠ "")
    (hft : jsTrim f ≠ "")
    (hd : s.datasetsInit = true) (hnet : s.networkInit = true) :
    (handleNetworkClick s rid { nodes := [c], edges := [] }).2 =
      [Effect.addEdgeToRender
         { id := rid, fromId := c, toId := f, label := s.relationshipType },
       Effect.pushEdgeToMirror
         { id := rid, source := some c, target := some f,
           label := s.relationshipType },
       Effect.invokeBackend (safeInvokeDelayMs "add_relationship")
         "add_relationship" rid c f s.relationshipType,
       Effect.unselectNetwork,
       Effect.dispatchHost "relationshipCreated" none] ∧
    safeInvokeDelayMs "add_relationship" = 10000 := by
  rw [handleNetworkClick_commit s rid c f node hmode hfirst hsel hne hfind
    hdiary hct hft hd hnet]
  exact ⟨rfl, rfl⟩

/-- C9 witness: the concrete commit trace of the spec's scenario. -/
theorem C9_commit_trace_witness :
    (handleNetworkClick sAwaitParent "r1"
        { nodes := ["d2"], edges := [] }).2 =
      [Effect.addEdgeToRender
         { id := "r1", fromId := "d2", toId := "d1",
           label := sAwaitParent.relationshipType },
       Effect.pushEdgeToMirror
         { id := "r1", source := some "d2", target := some "d1",
           label := sAwaitParent.relationshipType },
       Effect.invokeBackend (safeInvokeDelayMs "add_relationship")
         "add_relationship" "r1" "d2" "d1" sAwaitParent.relationshipType,
       Effect.unselectNetwork,
       Effect.dispatchHost "relationshipCreated" none] ∧
    safeInvokeDelayMs "add_relationship" = 10000 :=
  C9_commit_trace sAwaitParent "r1" "d2" "d1" nodeD2 rfl rfl rfl
    (by decide) rfl rfl (by decide) (by decide) rfl rfl

/-- C10: every commit dispatches the `relationshipCreated` host event and
resets the pending-child selection synchronously, inside the click
handler itself — before the persistence request completes — and both
facts still hold after the failure continuation runs, so the event is
emitted even when the request subsequently fails and the optimistic edge
is rolled back. -/
theorem C10_dispatch_and_reset
    (s : CanvasState) (rid c f err : String) (node : ProcessedNode)
    (hmode : s.isCreatingRelationship = true)
    (hfirst : s.hasSelectedFirstNode = true)
    (hsel : s.selectedNodeId = some f)
    (hne : f ≠ c)
    (hfind : s.graphNodes.find? (fun n => n.id == c) = some node)
    (hdiary : isDiaryNode node = true)
    (hct : jsTrim c ≠ "")
    (hft : jsTrim f ≠ "")
    (hd : s.datasetsInit = true) (hnet : s.networkInit = true) :
    Effect.dispatchHost "relationshipCreated" none ∈
      (handleNetworkClick s rid { nodes := [c], edges := [] }).2 ∧
    (handleNetworkClick s rid
        { nodes := [c], edges := [] }).1.hasSelectedFirstNode = false ∧
    (handleNetworkClick s rid
        { nodes := [c], edges := [] }).1.selectedNodeId = none ∧
    Effect.dispatchHost "relationshipCreated" none ∈
      (commitThenFail s rid { nodes := [c], edges := [] } err).2 ∧
    (commitThenFail s rid
        { nodes := [c], edges := [] } err).1.hasSelectedFirstNode = false ∧
    (commitThenFail s rid
        { nodes := [c], edges := [] } err).1.selectedNodeId = none := by
  have hcommit := handleNetworkClick_commit s rid c f node hmode hfirst hsel
    hne hfind hdiary hct hft hd hnet
  refine ⟨?_, ?_, ?_, ?_, ?_, ?_⟩
  · rw [hcommit]; simp
  · rw [hcommit]
  · rw [hcommit]
  · simp only [commitThenFail, hcommit]
    simp
  · simp [commitThenFail, hcommit, addRelationshipFailure, hd]
  · simp [commitThenFail, hcommit, addRelationshipFailure, hd]

/-- C10 witness: dispatch and reset on the spec's scenario, also after a
concrete failure of the persistence request. -/
theorem C10_dispatch_and_reset_witness :
    Effect.dispatchHost "relationshipCreated" none ∈
      (handleNetworkClick sAwaitParent "r1"
        { nodes := ["d2"], edges := [] }).2 ∧
    (handleNetworkClick sAwaitParent "r1"
        { nodes := ["d2"], edges := [] }).1.hasSelectedFirstNode = false ∧
    (handleNetworkClick sAwaitParent "r1"
        { nodes := ["d2"], edges := [] }).1.selectedNodeId = none ∧
    Effect.dispatchHost "relationshipCreated" none ∈
      (commitThenFail sAwaitParent "r1" { nodes := ["d2"], edges := [] }
        "backend unavailable").2 ∧
    (commitThenFail sAwaitParent "r1" { nodes := ["d2"], edges := [] }
        "backend unavailable").1.hasSelectedFirstNode = false ∧
    (commitThenFail sAwaitParent "r1" { nodes := ["d2"], edges := [] }
        "backend unavailable").1.selectedNodeId = none :=
  C10_dispatch_and_reset sAwaitParent "r1" "d2" "d1" "backend unavailable"
    nodeD2 rfl rfl rfl (by decide) rfl rfl (by decide) (by decide) rfl rfl

end Secondbrain
